import Mathlib

/-
  Verification development for the rcss soccer-agent decision core
  (src/common-cpp/include/messages.h, localization.h, game_logic.h).

  The C++ code is embedded shallowly: float values become real numbers,
  the mutable GameLogic fields become an explicit GameState record that
  every decision step threads through, and the two while-loops of
  normalize_angle become well-founded recursion on the number of
  remaining 360-degree steps.
-/

set_option maxHeartbeats 1000000

namespace robocup

noncomputable section

/-- Game status values from messages.h (enum GameStatus). -/
inductive GameStatus : Type where
  | IDLE : GameStatus
  | BEFORE_KICK_OFF : GameStatus
  | PLAYING : GameStatus
  | FINISHED : GameStatus
deriving DecidableEq, Repr

/-- Player roles. messages.h declares STRIKER..DEFENDER; the extra
STRIKER_GK_SIM value is referenced by the role switch of game_logic.h and by
both platform mains (main_pc.cpp, main_esp32.cpp), so it belongs to the
role vocabulary of the program. -/
inductive PlayerRole : Type where
  | STRIKER : PlayerRole
  | DRIBBLER : PlayerRole
  | PASSER : PlayerRole
  | RECEIVER : PlayerRole
  | GOALKEEPER : PlayerRole
  | DEFENDER : PlayerRole
  | STRIKER_GK_SIM : PlayerRole
deriving DecidableEq, Repr

/-- Action discriminants from messages.h (enum ActionType). -/
inductive ActionType : Type where
  | NONE : ActionType
  | DASH : ActionType
  | TURN : ActionType
  | KICK : ActionType
  | CATCH : ActionType
  | MOVE : ActionType
deriving DecidableEq, Repr

/-- struct ObjectInfo: a ball/goal observation relative to the player. -/
structure ObjectInfo : Type where
  distance : ℝ
  angle : ℝ
  visible : Bool

/-- struct TeammateInfo. -/
structure TeammateInfo : Type where
  player_id : ℕ
  distance : ℝ
  angle : ℝ
  visible : Bool

/-- struct FlagInfo: one landmark observation for triangulation. -/
structure FlagInfo : Type where
  name : String
  distance : ℝ
  angle : ℝ
  visible : Bool

/-- struct PlayerPosition: absolute pose estimate. -/
structure PlayerPosition : Type where
  x : ℝ
  y : ℝ
  heading : ℝ
  valid : Bool

/-- PlayerPosition(): the invalid default pose. -/
def PlayerPosition.invalid : PlayerPosition := ⟨0, 0, 0, false⟩

/-- struct SensorData: one perception snapshot. -/
structure SensorData : Type where
  status : GameStatus
  role : PlayerRole
  ball : ObjectInfo
  goal : ObjectInfo
  teammates : List TeammateInfo
  flags : List FlagInfo
  position : PlayerPosition
  stamina : ℝ
  speed : ℝ

/-- struct Action: tagged action with two parameter slots (params[0], params[1]). -/
structure Action : Type where
  type : ActionType
  p0 : ℝ
  p1 : ℝ
deriving DecidableEq

/-- Action::none(). -/
def Action.none : Action := ⟨ActionType.NONE, 0, 0⟩

/-- Action::dash(power, direction). -/
def Action.dash (power direction : ℝ) : Action := ⟨ActionType.DASH, power, direction⟩

/-- Action::turn(angle). -/
def Action.turn (angle : ℝ) : Action := ⟨ActionType.TURN, angle, 0⟩

/-- Action::kick(power, direction). -/
def Action.kick (power direction : ℝ) : Action := ⟨ActionType.KICK, power, direction⟩

/-- Action::catch_ball(direction). -/
def Action.catch_ball (direction : ℝ) : Action := ⟨ActionType.CATCH, direction, 0⟩

/-- Action::move(x, y). -/
def Action.move (mx my : ℝ) : Action := ⟨ActionType.MOVE, mx, my⟩

/- ===================== Localization (localization.h) ===================== -/

/-- atan2 in radians with the C convention: result in (-pi, pi],
modelled as the complex argument of x + y*i. -/
def myAtan2 (y x : ℝ) : ℝ := Complex.arg { re := x, im := y }

/-- Number of pending 360-steps of the first normalize_angle loop. -/
def subSteps (a : ℝ) : ℕ := (Int.ceil ((a - 180) / 360)).toNat

/-- Number of pending 360-steps of the second normalize_angle loop. -/
def addSteps (a : ℝ) : ℕ := (Int.ceil ((-180 - a) / 360)).toNat

theorem subSteps_dec (a : ℝ) (h : 180 < a) : subSteps (a - 360) < subSteps a := by
  have h1 : (0 : ℝ) < (a - 180) / 360 := by
    have hx : (0 : ℝ) < a - 180 := by linarith
    positivity
  have h2 : (0 : ℤ) < Int.ceil ((a - 180) / 360) := Int.ceil_pos.mpr h1
  have h3 : (a - 360 - 180) / 360 = (a - 180) / 360 - 1 := by ring
  have h4 : Int.ceil ((a - 360 - 180) / 360) = Int.ceil ((a - 180) / 360) - 1 := by
    rw [h3, Int.ceil_sub_one]
  unfold subSteps
  rw [h4]
  omega

theorem addSteps_dec (a : ℝ) (h : a < -180) : addSteps (a + 360) < addSteps a := by
  have h1 : (0 : ℝ) < (-180 - a) / 360 := by
    have hx : (0 : ℝ) < -180 - a := by linarith
    positivity
  have h2 : (0 : ℤ) < Int.ceil ((-180 - a) / 360) := Int.ceil_pos.mpr h1
  have h3 : (-180 - (a + 360)) / 360 = (-180 - a) / 360 - 1 := by ring
  have h4 : Int.ceil ((-180 - (a + 360)) / 360) = Int.ceil ((-180 - a) / 360) - 1 := by
    rw [h3, Int.ceil_sub_one]
  unfold addSteps
  rw [h4]
  omega

/-- First loop of normalize_angle: while (angle > 180) angle -= 360. -/
def subLoop (a : ℝ) : ℝ :=
  if h : 180 < a then subLoop (a - 360) else a
termination_by subSteps a
decreasing_by exact subSteps_dec a h

/-- Second loop of normalize_angle: while (angle < -180) angle += 360. -/
def addLoop (a : ℝ) : ℝ :=
  if h : a < -180 then addLoop (a + 360) else a
termination_by addSteps a
decreasing_by exact addSteps_dec a h

/-- Localization::normalize_angle: both loops in sequence. -/
def normalize_angle (a : ℝ) : ℝ := addLoop (subLoop a)

/-- Fuelled operational semantics of the first loop (none = fuel ran out). -/
def subLoopF : ℕ → ℝ → Option ℝ
  | 0, _ => Option.none
  | n + 1, a => if 180 < a then subLoopF n (a - 360) else Option.some a

/-- Fuelled operational semantics of the second loop. -/
def addLoopF : ℕ → ℝ → Option ℝ
  | 0, _ => Option.none
  | n + 1, a => if a < -180 then addLoopF n (a + 360) else Option.some a

/-- Fuelled normalize_angle: run both loops under a common fuel bound. -/
def normalizeF (n : ℕ) (a : ℝ) : Option ℝ :=
  match subLoopF n a with
  | Option.none => Option.none
  | Option.some b => addLoopF n b

/-- Digit run parser used for the numbered side-marker families
(the while loop over characters in get_flag_position). -/
def parseDigits (s : String) : ℕ :=
  (s.toList.takeWhile Char.isDigit).foldl (fun n c => n * 10 + (c.toNat - 48)) 0

/-- Localization::get_flag_position: the landmark table, in source order.
strcmp equality becomes string equality; strncmp(name, p, 6) == 0 becomes
name.take 6 = p. -/
def get_flag_position (name : String) : Option (ℝ × ℝ) :=
  if name = "f c" then Option.some (0, 0)
  else if name = "f l t" then Option.some (-57.5, 39)
  else if name = "f l b" then Option.some (-57.5, -39)
  else if name = "f r t" then Option.some (57.5, 39)
  else if name = "f r b" then Option.some (57.5, -39)
  else if name = "f c t" then Option.some (0, 39)
  else if name = "f c b" then Option.some (0, -39)
  else if name = "f l 0" then Option.some (-57.5, 0)
  else if name = "f r 0" then Option.some (57.5, 0)
  else if name = "g l" then Option.some (-52.5, 0)
  else if name = "g r" then Option.some (52.5, 0)
  else if name = "f g l t" then Option.some (-52.5, 7.01)
  else if name = "f g l b" then Option.some (-52.5, -7.01)
  else if name = "f g r t" then Option.some (52.5, 7.01)
  else if name = "f g r b" then Option.some (52.5, -7.01)
  else if name = "f p l t" then Option.some (-36.0, 20.16)
  else if name = "f p l b" then Option.some (-36.0, -20.16)
  else if name = "f p l c" then Option.some (-36.0, 0)
  else if name = "f p r t" then Option.some (36.0, 20.16)
  else if name = "f p r b" then Option.some (36.0, -20.16)
  else if name = "f p r c" then Option.some (36.0, 0)
  else if name.take 6 = "f t l " ∨ name.take 6 = "f t r " ∨
          name.take 6 = "f b l " ∨ name.take 6 = "f b r " then
    let num : ℝ := (parseDigits (name.drop 6) : ℕ)
    let fy : ℝ := if name.take 6 = "f t l " ∨ name.take 6 = "f t r " then 39 else -39
    let fx : ℝ := if name.take 6 = "f t l " ∨ name.take 6 = "f b l " then -num else num
    Option.some (fx, fy)
  else if name.take 6 = "f l t " ∨ name.take 6 = "f l b " ∨
          name.take 6 = "f r t " ∨ name.take 6 = "f r b " then
    let num : ℝ := (parseDigits (name.drop 6) : ℕ)
    let fx : ℝ := if name.take 6 = "f l t " ∨ name.take 6 = "f l b " then -57.5 else 57.5
    let fy : ℝ := if name.take 6 = "f l t " ∨ name.take 6 = "f r t " then num else -num
    Option.some (fx, fy)
  else Option.none

/-- The local KnownFlagData record of estimate_position. -/
structure KnownFlagData : Type where
  x : ℝ
  y : ℝ
  dist : ℝ
  angle : ℝ

/-- The known-flag collection loop of estimate_position: keep visible flags
whose name resolves in the landmark table, capped at 10. -/
def resolvedFlags (flags : List FlagInfo) : List KnownFlagData :=
  (flags.filterMap (fun f =>
    if f.visible = true then
      match get_flag_position f.name with
      | Option.some p => Option.some ⟨p.1, p.2, f.distance, f.angle⟩
      | Option.none => Option.none
    else Option.none)).take 10

/-- Localization::triangulate: two-circle intersection. -/
def triangulate (x1 y1 r1 x2 y2 r2 : ℝ) : PlayerPosition :=
  let dx := x2 - x1
  let dy := y2 - y1
  let d := Real.sqrt (dx * dx + dy * dy)
  if r1 + r2 < d ∨ d < |r1 - r2| ∨ d = 0 then PlayerPosition.invalid
  else
    let a := (r1 * r1 - r2 * r2 + d * d) / (2 * d)
    let h_sq := r1 * r1 - a * a
    if h_sq < 0 then PlayerPosition.invalid
    else
      let h := Real.sqrt h_sq
      let px := x1 + a * dx / d
      let py := y1 + a * dy / d
      let ix1 := px + h * dy / d
      let iy1 := py - h * dx / d
      let ix2 := px - h * dy / d
      let iy2 := py + h * dx / d
      let p1_in := -55 ≤ ix1 ∧ ix1 ≤ 55 ∧ -37 ≤ iy1 ∧ iy1 ≤ 37
      let p2_in := -55 ≤ ix2 ∧ ix2 ≤ 55 ∧ -37 ≤ iy2 ∧ iy2 ≤ 37
      if p1_in ∧ ¬ p2_in then ⟨ix1, iy1, 0, true⟩
      else if p2_in ∧ ¬ p1_in then ⟨ix2, iy2, 0, true⟩
      else ⟨ix1, iy1, 0, true⟩

/-- One heading sample in the heading-fusion loop: the absolute bearing from
the estimated position to the flag (the code uses 3.14159 for pi) minus the
observed relative bearing, normalized. -/
def headingFromFlag (px py : ℝ) (k : KnownFlagData) : ℝ :=
  normalize_angle (myAtan2 (k.y - py) (k.x - px) * 180 / 3.14159 - k.angle)

/-- Localization::estimate_position. -/
def estimate_position (flags : List FlagInfo) : PlayerPosition :=
  if flags.length < 2 then PlayerPosition.invalid
  else
    match resolvedFlags flags with
    | k1 :: k2 :: rest =>
      let pos := triangulate k1.x k1.y k1.dist k2.x k2.y k2.dist
      if pos.valid = true then
        let ks := k1 :: k2 :: rest
        let sinSum := (ks.map (fun k =>
          Real.sin (headingFromFlag pos.x pos.y k * 3.14159 / 180))).sum
        let cosSum := (ks.map (fun k =>
          Real.cos (headingFromFlag pos.x pos.y k * 3.14159 / 180))).sum
        if 0 < ks.length then
          { pos with heading := myAtan2 sinSum cosSum * 180 / 3.14159 }
        else pos
      else PlayerPosition.invalid
    | _ => PlayerPosition.invalid

/-- Localization::angle_to_target: relative turn needed to face (tx, ty);
0 when the pose is invalid. -/
def angle_to_target (pos : PlayerPosition) (tx ty : ℝ) : ℝ :=
  if pos.valid = true then
    normalize_angle (myAtan2 (ty - pos.y) (tx - pos.x) * 180 / 3.14159 - pos.heading)
  else 0

/-- Localization::angle_to_enemy_goal: angle_to_target at (52.5, 0). -/
def angle_to_enemy_goal (pos : PlayerPosition) : ℝ := angle_to_target pos 52.5 0

/- ===================== Behavior engine (game_logic.h) ===================== -/

/-- enum class AgentState: the coarse FSM labels. -/
inductive AgentState : Type where
  | IDLE : AgentState
  | SEARCHING_BALL : AgentState
  | APPROACHING_BALL : AgentState
  | DRIBBLING : AgentState
  | SHOOTING : AgentState
  | PASSING : AgentState
  | DEFENDING : AgentState
  | CATCHING : AgentState
deriving DecidableEq, Repr

/-- enum class KickoffPhase. -/
inductive KickoffPhase : Type where
  | INITIAL : KickoffPhase
  | PASSER_HAS_BALL : KickoffPhase
  | PASS_TO_RECEIVER : KickoffPhase
  | RECEIVER_HAS_BALL : KickoffPhase
  | RETURN_PASS : KickoffPhase
  | PASSER_SHOOTS : KickoffPhase
  | COMPLETED : KickoffPhase
deriving DecidableEq, Repr

/-- The mutable fields of class GameLogic, made an explicit state record. -/
structure GameState : Type where
  current_state : AgentState
  dribble_cycle : ℤ
  goal_search_cycles : ℤ
  kickoff_phase : KickoffPhase
  receiver_run_cycles : ℤ
  passer_kicked : Bool
  goalkeeper_caught : Bool
  goalkeeper_turned : Bool

/-- The GameLogic constructor / reset(): all counters zero, all flags clear. -/
def initState : GameState :=
  ⟨AgentState.IDLE, 0, 0, KickoffPhase.INITIAL, 0, false, false, false⟩

/-- GameConfig::KICKABLE_DISTANCE. -/
def KICKABLE_DISTANCE : ℝ := 0.7

/-- GameConfig::CATCHABLE_DISTANCE (declared; the goalkeeper uses the GK_SIM value). -/
def CATCHABLE_DISTANCE : ℝ := 2.0

/-- GameConfig::CATCHABLE_DISTANCE_GK_SIM. -/
def CATCHABLE_DISTANCE_GK_SIM : ℝ := 3.0

/-- GameConfig::SHOOTING_DISTANCE. -/
def SHOOTING_DISTANCE : ℝ := 25.0

/-- GameConfig::KICK_POWER_SHOT. -/
def KICK_POWER_SHOT : ℝ := 100.0

/-- GameConfig::KICK_POWER_PASS (declared in GameConfig; unused by the handlers). -/
def KICK_POWER_PASS : ℝ := 50.0

/-- GameLogic::DRIBBLE_DISTANCE. -/
def DRIBBLE_DISTANCE : ℝ := 5.0

/-- GameLogic::DRIBBLE_KICK_INTERVAL. -/
def DRIBBLE_KICK_INTERVAL : ℤ := 1

/-- GameLogic::search_ball. -/
def search_ball (g : GameState) : GameState × Action :=
  ({ g with current_state := AgentState.SEARCHING_BALL }, Action.turn 30)

/-- GameLogic::approach_ball. -/
def approach_ball (g : GameState) (ball : ObjectInfo) : GameState × Action :=
  if ball.distance ≤ DRIBBLE_DISTANCE ∧ KICKABLE_DISTANCE < ball.distance then
    let g1 := { g with current_state := AgentState.DRIBBLING }
    if g1.dribble_cycle % DRIBBLE_KICK_INTERVAL = 0 then
      (g1, Action.kick 25 0)
    else
      (g1, Action.dash 80 ball.angle)
  else
    let g1 := { g with current_state := AgentState.APPROACHING_BALL }
    let power : ℝ := if 10 < ball.distance then 100 else 80
    (g1, Action.dash power ball.angle)

/-- GameLogic::shoot_to_goal. -/
def shoot_to_goal (g : GameState) (goal : ObjectInfo) : GameState × Action :=
  let g1 := { g with current_state := AgentState.SHOOTING }
  let shoot_angle : ℝ := if goal.visible = true then goal.angle else 0
  (g1, Action.kick 100 shoot_angle)

/-- GameLogic::dribble_forward. -/
def dribble_forward (g : GameState) (s : SensorData) : GameState × Action :=
  let g1 := { g with current_state := AgentState.DRIBBLING }
  if s.position.valid = true then
    (g1, Action.kick 30 (angle_to_enemy_goal s.position))
  else
    (g1, Action.kick 30 0)

/-- GameLogic::decide_striker. -/
def decide_striker (g : GameState) (s : SensorData) : GameState × Action :=
  if s.ball.visible = false then
    search_ball { g with goal_search_cycles := 0 }
  else if s.ball.distance ≤ KICKABLE_DISTANCE then
    if s.goal.visible = true ∧ s.goal.distance < SHOOTING_DISTANCE then
      shoot_to_goal { g with goal_search_cycles := 0 } s.goal
    else if s.goal.visible = true then
      ({ g with goal_search_cycles := 0, current_state := AgentState.DRIBBLING },
        Action.kick 30 s.goal.angle)
    else if s.position.valid = true then
      if 35 < s.position.x then
        ({ g with current_state := AgentState.SHOOTING },
          Action.kick 100 (angle_to_target s.position 52.5 0))
      else
        ({ g with current_state := AgentState.DRIBBLING },
          Action.kick 30 (angle_to_enemy_goal s.position))
    else
      let g1 := { g with goal_search_cycles := g.goal_search_cycles + 1 }
      if g1.goal_search_cycles < 5 then
        ({ g1 with current_state := AgentState.SEARCHING_BALL }, Action.turn 30)
      else
        dribble_forward g1 s
  else
    approach_ball g s.ball

/-- GameLogic::decide_dribbler. -/
def decide_dribbler (g : GameState) (s : SensorData) : GameState × Action :=
  if s.ball.visible = false then search_ball g
  else if KICKABLE_DISTANCE < s.ball.distance then approach_ball g s.ball
  else dribble_forward g s

/-- GameLogic::decide_passer: kickoff once, then nothing, ever. -/
def decide_passer (g : GameState) (s : SensorData) : GameState × Action :=
  if g.passer_kicked = true then
    ({ g with current_state := AgentState.IDLE }, Action.none)
  else if s.ball.visible = false then search_ball g
  else if KICKABLE_DISTANCE < s.ball.distance then approach_ball g s.ball
  else
    ({ g with passer_kicked := true }, Action.kick 30 0)

/-- GameLogic::decide_receiver. -/
def decide_receiver (g : GameState) (s : SensorData) : GameState × Action :=
  if ¬ (s.status = GameStatus.PLAYING) then
    ({ g with current_state := AgentState.IDLE }, Action.none)
  else if s.ball.visible = false then search_ball g
  else if KICKABLE_DISTANCE < s.ball.distance then approach_ball g s.ball
  else if s.goal.visible = true ∧ s.goal.distance < SHOOTING_DISTANCE then
    shoot_to_goal g s.goal
  else if s.goal.visible = true then
    ({ g with current_state := AgentState.DRIBBLING }, Action.kick 30 s.goal.angle)
  else dribble_forward g s

/-- GameLogic::decide_goalkeeper: one orienting turn, one catch, then nothing. -/
def decide_goalkeeper (g : GameState) (s : SensorData) : GameState × Action :=
  if g.goalkeeper_caught = true then (g, Action.none)
  else if ¬ (g.goalkeeper_turned = true) then
    ({ g with goalkeeper_turned := true }, Action.turn 180)
  else if s.ball.visible = false then (g, Action.none)
  else if s.ball.distance ≤ CATCHABLE_DISTANCE_GK_SIM then
    ({ g with goalkeeper_caught := true, current_state := AgentState.CATCHING },
      Action.catch_ball s.ball.angle)
  else (g, Action.none)

/-- GameLogic::decide_striker_gk_sim. -/
def decide_striker_gk_sim (g : GameState) (s : SensorData) : GameState × Action :=
  if s.ball.visible = false then
    ({ g with current_state := AgentState.APPROACHING_BALL }, Action.dash 80 0)
  else if s.ball.distance ≤ KICKABLE_DISTANCE then
    ({ g with current_state := AgentState.SHOOTING }, Action.kick 30 0)
  else
    let power : ℝ := if 3 < s.ball.distance then 80 else 40
    ({ g with current_state := AgentState.APPROACHING_BALL }, Action.dash power s.ball.angle)

/-- GameLogic::decide_defender: hold with the ball, dash to it otherwise. -/
def decide_defender (g : GameState) (s : SensorData) : GameState × Action :=
  if s.ball.visible = false then search_ball g
  else if s.ball.distance < KICKABLE_DISTANCE then
    ({ g with current_state := AgentState.DEFENDING }, Action.none)
  else
    ({ g with current_state := AgentState.DEFENDING }, Action.dash 80 s.ball.angle)

/-- GameLogic::handle_passer_kickoff. -/
def handle_passer_kickoff (g : GameState) (s : SensorData) : GameState × Action :=
  if g.passer_kicked = true then
    ({ g with current_state := AgentState.IDLE }, Action.none)
  else if s.ball.visible = false then
    ({ g with current_state := AgentState.SEARCHING_BALL }, Action.turn 30)
  else if s.ball.distance ≤ KICKABLE_DISTANCE then
    ({ g with passer_kicked := true, current_state := AgentState.PASSING },
      Action.kick 40 0)
  else
    let power : ℝ :=
      if 6 < s.ball.distance then 100
      else if 3 < s.ball.distance then 80
      else if 1.5 < s.ball.distance then 50
      else 30
    ({ g with current_state := AgentState.APPROACHING_BALL }, Action.dash power s.ball.angle)

/-- GameLogic::decide_action: the per-cycle dispatch. -/
def decide_action (g : GameState) (s : SensorData) : GameState × Action :=
  let g1 := { g with dribble_cycle := g.dribble_cycle + 1 }
  if s.status = GameStatus.BEFORE_KICK_OFF then
    if s.role = PlayerRole.PASSER then handle_passer_kickoff g1 s
    else ({ g1 with current_state := AgentState.IDLE }, Action.none)
  else if ¬ (s.status = GameStatus.PLAYING) then
    ({ g1 with current_state := AgentState.IDLE }, Action.none)
  else
    match s.role with
    | PlayerRole.STRIKER => decide_striker g1 s
    | PlayerRole.DRIBBLER => decide_dribbler g1 s
    | PlayerRole.PASSER => decide_passer g1 s
    | PlayerRole.RECEIVER => decide_receiver g1 s
    | PlayerRole.GOALKEEPER => decide_goalkeeper g1 s
    | PlayerRole.DEFENDER => decide_defender g1 s
    | PlayerRole.STRIKER_GK_SIM => decide_striker_gk_sim g1 s

/-- A sequence of decision cycles from a given state: the emitted actions. -/
def runActions (g : GameState) : List SensorData → List Action
  | [] => []
  | s :: rest => (decide_action g s).2 :: runActions (decide_action g s).1 rest

/-- Number of CATCH actions in a list of actions. -/
def countCatch : List Action → ℕ
  | [] => 0
  | a :: rest => (if a.type = ActionType.CATCH then 1 else 0) + countCatch rest

/- ===================== Concrete snapshots for witnesses ===================== -/

/-- A visible object at the given distance and bearing. -/
def ballAt (d a : ℝ) : ObjectInfo := ⟨d, a, true⟩

/-- An invisible object (ObjectInfo default constructor). -/
def unseen : ObjectInfo := ⟨0, 0, false⟩

/-- A baseline snapshot: playing, striker, nothing visible, invalid pose. -/
def baseSensors : SensorData :=
  ⟨GameStatus.PLAYING, PlayerRole.STRIKER, unseen, unseen, [], [],
    PlayerPosition.invalid, 8000, 0⟩

/-- Snapshot for the passer at the ball with one visible teammate at 30 degrees
(the scenario of the repository test PasserPassesToTeammate). -/
def passSnap : SensorData :=
  { baseSensors with role := PlayerRole.PASSER, ball := ballAt 0.5 0,
                     teammates := [⟨2, 10, 30, true⟩] }

/-- Snapshot with the ball visible at 3 m, bearing 45 degrees (dribble zone). -/
def midBall : SensorData := { baseSensors with ball := ballAt 3 45 }

/-- Snapshot with the ball visible at 12 m, bearing 45 degrees. -/
def farBall : SensorData := { baseSensors with ball := ballAt 12 45 }

/-- Goalkeeper snapshot with the ball in kickable and catchable range. -/
def gkSnap : SensorData :=
  { baseSensors with role := PlayerRole.GOALKEEPER, ball := ballAt 0.5 0 }

/-- Passer kickoff snapshot: before kickoff, ball in kickable range. -/
def kickoffSnap : SensorData :=
  { baseSensors with status := GameStatus.BEFORE_KICK_OFF, role := PlayerRole.PASSER,
                     ball := ballAt 0.5 0 }

/-- Passer snapshot in open play with no ball visible. -/
def searchSnap : SensorData := { baseSensors with role := PlayerRole.PASSER }

/-- A goalkeeper state that has already done its orienting turn. -/
def turnedState : GameState := { initState with goalkeeper_turned := true }

/-- A goalkeeper state after its one catch. -/
def caughtState : GameState :=
  { initState with goalkeeper_turned := true, goalkeeper_caught := true }

/-- Two landmark observations: the centre flag at range 19 and the top-centre
flag at range 20; their circles touch (centre distance 39 = 19 + 20). -/
def triFlags : List FlagInfo := [⟨"f c", 19, 0, true⟩, ⟨"f c t", 20, 0, true⟩]

end

end robocup

namespace robocup

/- ===================== Theorems ===================== -/

/-- Claim C2 (code_bug evidence): at the exact scenario of the repository test PasserPassesToTeammate (playing, passer, ball at 0.5 m, one visible
teammate at bearing 30), decide_action kicks with power 30 at direction 0 —
not toward the teammate bearing and not at the configured pass power 50 —
and leaves the state label IDLE instead of setting it to PASSING, which is
what the test asserts. -/
theorem C2_passer_ignores_teammates :
    (decide_action initState passSnap).2 = Action.kick 30 0 ∧
    (decide_action initState passSnap).1.current_state = AgentState.IDLE ∧
    ¬ (decide_action initState passSnap).1.current_state = AgentState.PASSING ∧
    ¬ (decide_action initState passSnap).2.p1 = 30 ∧
    ¬ (decide_action initState passSnap).2.p0 = KICK_POWER_PASS := by
  have h : decide_action initState passSnap =
      ({ initState with dribble_cycle := 1, passer_kicked := true }, Action.kick 30 0) := by
    norm_num [decide_action, decide_passer, passSnap, baseSensors, ballAt, initState,
      KICKABLE_DISTANCE]
    simp
  rw [h]
  norm_num [Action.kick, KICK_POWER_PASS, initState]
  simp

/-- Claim C1 (counterexample): with the ball visible at 3 m (inside the dribble
zone, strictly beyond the kickable threshold) and bearing 45, the striker
decision is kick(25, 0), not a dash at the ball bearing. -/
theorem C1_dribble_zone_counterexample :
    (decide_action initState midBall).2 = Action.kick 25 0 ∧
    ¬ (decide_action initState midBall).2.type = ActionType.DASH := by
  have h : (decide_action initState midBall).2 = Action.kick 25 0 := by
    norm_num [decide_action, decide_striker, approach_ball, midBall, baseSensors,
      ballAt, initState, KICKABLE_DISTANCE, DRIBBLE_DISTANCE, DRIBBLE_KICK_INTERVAL]
    simp
  refine ⟨h, ?_⟩
  rw [h]
  simp [Action.kick]

/-- Claim C1 (amended): during play with the ball visible, the exact-bearing
dash passthrough holds for striker, dribbler, receiver, and the passer whose
kickoff latch is unset, whenever the ball is beyond the dribble zone
(distance > 5); for the defender it holds whenever the ball is at or beyond
the kickable threshold (with fixed power 80). -/
theorem C1_dash_passthrough_amended (g : GameState) (s : SensorData)
    (hst : s.status = GameStatus.PLAYING) (hb : s.ball.visible = true) :
    ((s.role = PlayerRole.STRIKER ∨ s.role = PlayerRole.DRIBBLER ∨
      s.role = PlayerRole.RECEIVER ∨
      (s.role = PlayerRole.PASSER ∧ g.passer_kicked = false)) →
      DRIBBLE_DISTANCE < s.ball.distance →
      (decide_action g s).2.type = ActionType.DASH ∧
      (decide_action g s).2.p1 = s.ball.angle)
  ∧ (s.role = PlayerRole.DEFENDER → KICKABLE_DISTANCE < s.ball.distance →
      (decide_action g s).2 = Action.dash 80 s.ball.angle) := by
  constructor
  · intro hr hd
    rw [DRIBBLE_DISTANCE] at hd
    norm_num at hd
    have hle : ¬ s.ball.distance ≤ KICKABLE_DISTANCE := by
      rw [KICKABLE_DISTANCE]
      push_neg
      linarith
    have hk : KICKABLE_DISTANCE < s.ball.distance := by
      rw [KICKABLE_DISTANCE]
      linarith
    have hnd : ¬ s.ball.distance ≤ DRIBBLE_DISTANCE := by
      rw [DRIBBLE_DISTANCE]
      push_neg
      linarith
    rcases hr with h | h | h | ⟨h, hkick⟩
    · simp [decide_action, hst, h, decide_striker, approach_ball, Action.dash,
        hb, hle, hk, hnd]
    · simp [decide_action, hst, h, decide_dribbler, approach_ball, Action.dash,
        hb, hle, hk, hnd]
    · simp [decide_action, hst, h, decide_receiver, approach_ball, Action.dash,
        hb, hle, hk, hnd]
    · simp [decide_action, hst, h, decide_passer, approach_ball, Action.dash,
        hb, hkick, hle, hk, hnd]
  · intro h hd
    have hlt : ¬ (s.ball.distance < KICKABLE_DISTANCE) := not_lt.mpr (le_of_lt hd)
    simp [decide_action, hst, h, decide_defender, hb, hlt]

/-- Claim C1 (witness): striker, ball at 12 m bearing 45 ⇒ a dash at bearing 45. -/
theorem C1_dash_passthrough_witness :
    (decide_action initState farBall).2.type = ActionType.DASH ∧
    (decide_action initState farBall).2.p1 = 45 := by
  have h := (C1_dash_passthrough_amended initState farBall rfl rfl).1 (Or.inl rfl)
    (by norm_num [farBall, baseSensors, ballAt, DRIBBLE_DISTANCE])
  simpa [farBall, baseSensors, ballAt] using h

/-- Claim C7: (a) an unlatched passer during before-kickoff with the ball in
kickable range kicks with power 40 at angle 0 and latches the has-kicked-off
flag; (b) once the latch is set, every decide_action call with role passer
returns none and preserves the latch, regardless of game status and sensors. -/
theorem C7_passer_kickoff_latch (g : GameState) (s : SensorData) :
    (g.passer_kicked = false → s.status = GameStatus.BEFORE_KICK_OFF →
      s.role = PlayerRole.PASSER → s.ball.visible = true →
      s.ball.distance ≤ KICKABLE_DISTANCE →
      (decide_action g s).2 = Action.kick 40 0 ∧
      (decide_action g s).1.passer_kicked = true)
  ∧ (g.passer_kicked = true → s.role = PlayerRole.PASSER →
      (decide_action g s).2 = Action.none ∧
      (decide_action g s).1.passer_kicked = true) := by
  constructor
  · intro h1 h2 h3 h4 h5
    simp [decide_action, h2, h3, handle_passer_kickoff, h1, h4, h5]
  · intro h1 h3
    cases hs : s.status <;>
      simp [decide_action, hs, h3, handle_passer_kickoff, decide_passer, h1]

/-- Claim C7 (witness): from the initial state, the kickoff snapshot produces
kick(40, 0) and sets the latch; with the latch set, open play yields none. -/
theorem C7_passer_kickoff_latch_witness :
    ((decide_action initState kickoffSnap).2 = Action.kick 40 0 ∧
      (decide_action initState kickoffSnap).1.passer_kicked = true) ∧
    ((decide_action { initState with passer_kicked := true } searchSnap).2 =
        Action.none ∧
      (decide_action { initState with passer_kicked := true } searchSnap).1.passer_kicked
        = true) := by
  constructor
  · exact (C7_passer_kickoff_latch initState kickoffSnap).1 rfl rfl rfl rfl
      (by norm_num [kickoffSnap, baseSensors, ballAt, KICKABLE_DISTANCE])
  · exact (C7_passer_kickoff_latch { initState with passer_kicked := true }
      searchSnap).2 rfl rfl

/-- Claim C6 (counterexample): running the goalkeeper from reset on three
cycles with the ball 0.5 m away gives turn(180), catch, then none — after the
catch the goalkeeper emits no clearing kick, contradicting the claimed
catch-then-kick choreography. -/
theorem C6_no_clearing_kick_counterexample :
    runActions initState [gkSnap, gkSnap, gkSnap] =
      [Action.turn 180, Action.catch_ball 0, Action.none] ∧
    ¬ Action.none.type = ActionType.KICK := by
  constructor
  · norm_num [runActions, decide_action, decide_goalkeeper, gkSnap, baseSensors,
      ballAt, initState, CATCHABLE_DISTANCE_GK_SIM]
    simp
  · simp [Action.none]

/-- Claim C6 (amended): after its catch, the goalkeeper permanently returns
none (no clearing kick), and the one-shot caught latch is preserved by every
subsequent decision step. -/
theorem C6_goalkeeper_stand_down_amended (g : GameState) (s : SensorData)
    (h1 : g.goalkeeper_caught = true) (h2 : s.role = PlayerRole.GOALKEEPER) :
    (decide_action g s).2 = Action.none ∧
    (decide_action g s).1.goalkeeper_caught = true := by
  cases hs : s.status <;>
    simp [decide_action, hs, h2, decide_goalkeeper, h1]

/-- Claim C6 (witness): a caught goalkeeper facing the ball in kickable range
still returns none. -/
theorem C6_goalkeeper_stand_down_witness :
    (decide_action caughtState gkSnap).2 = Action.none ∧
    (decide_action caughtState gkSnap).1.goalkeeper_caught = true :=
  C6_goalkeeper_stand_down_amended caughtState gkSnap rfl rfl

/-- Claim C8 (counterexample): the passer does its kickoff kick, latching its
one-shot flag; on the next cycle — status playing, ball not visible, role
passer (≠ goalkeeper) — it returns none, not turn(30). -/
theorem C8_latched_passer_counterexample :
    runActions initState [kickoffSnap, searchSnap] = [Action.kick 40 0, Action.none] ∧
    ¬ Action.none = Action.turn 30 := by
  constructor
  · norm_num [runActions, decide_action, handle_passer_kickoff, decide_passer,
      kickoffSnap, searchSnap, baseSensors, ballAt, unseen, initState, KICKABLE_DISTANCE]
  · simp [Action.none, Action.turn]

/-- Claim C8 (amended): during play with the ball not visible, striker,
dribbler, defender, receiver — and the passer while its kickoff latch is
unset — turn by the fixed 30-degree search increment. (A latched passer
returns none and the goalkeeper-simulation striker dashes forward instead.) -/
theorem C8_search_turn_amended (g : GameState) (s : SensorData)
    (hst : s.status = GameStatus.PLAYING) (hb : s.ball.visible = false)
    (hr : s.role = PlayerRole.STRIKER ∨ s.role = PlayerRole.DRIBBLER ∨
          s.role = PlayerRole.DEFENDER ∨ s.role = PlayerRole.RECEIVER ∨
          (s.role = PlayerRole.PASSER ∧ g.passer_kicked = false)) :
    (decide_action g s).2 = Action.turn 30 := by
  rcases hr with h | h | h | h | ⟨h, hk⟩
  · simp [decide_action, hst, h, decide_striker, search_ball, hb]
  · simp [decide_action, hst, h, decide_dribbler, search_ball, hb]
  · simp [decide_action, hst, h, decide_defender, search_ball, hb]
  · simp [decide_action, hst, h, decide_receiver, search_ball, hb]
  · simp [decide_action, hst, h, decide_passer, search_ball, hb, hk]

/-- Claim C8 (witness): a striker who cannot see the ball turns by 30. -/
theorem C8_search_turn_witness :
    (decide_action initState baseSensors).2 = Action.turn 30 :=
  C8_search_turn_amended initState baseSensors rfl rfl (Or.inl rfl)

/-- Claim C4: when the pose estimate is invalid, the decision (action and
updated state alike) is independent of the pose fields x, y and heading:
overwriting them with arbitrary values changes nothing. -/
theorem C4_invalid_pose_noninterference (g : GameState) (s : SensorData)
    (px py ph : ℝ) (hv : s.position.valid = false) :
    decide_action g { s with position := ⟨px, py, ph, false⟩ } = decide_action g s := by
  cases hs : s.status <;> cases hr : s.role <;>
    simp [decide_action, hs, hr, decide_striker, decide_dribbler, decide_passer,
      decide_receiver, decide_goalkeeper, decide_striker_gk_sim, decide_defender,
      handle_passer_kickoff, search_ball, approach_ball, shoot_to_goal,
      dribble_forward, hv]

/-- Claim C4 (witness): concrete invalid-pose snapshots differing only in
x, y, heading produce the same decision. -/
theorem C4_invalid_pose_noninterference_witness :
    decide_action initState { midBall with position := ⟨17, -3, 90, false⟩ } =
      decide_action initState midBall :=
  C4_invalid_pose_noninterference initState midBall 17 (-3) 90 rfl

/-- Stepping the engine never emits CATCH from a caught state, a CATCH step
sets the caught latch, a non-CATCH step preserves it. -/
theorem gk_caught_step (g : GameState) (s : SensorData) :
    (g.goalkeeper_caught = true → (decide_action g s).1.goalkeeper_caught = true ∧
      ¬ (decide_action g s).2.type = ActionType.CATCH)
  ∧ ((decide_action g s).2.type = ActionType.CATCH →
      (decide_action g s).1.goalkeeper_caught = true)
  ∧ (¬ (decide_action g s).2.type = ActionType.CATCH →
      (decide_action g s).1.goalkeeper_caught = g.goalkeeper_caught) := by
  cases hs : s.status <;> cases hr : s.role <;>
    simp [decide_action, hs, hr, decide_striker, decide_dribbler, decide_passer,
      decide_receiver, decide_goalkeeper, decide_striker_gk_sim, decide_defender,
      handle_passer_kickoff, search_ball, approach_ball, shoot_to_goal,
      dribble_forward, Action.none, Action.dash, Action.turn, Action.kick,
      Action.catch_ball] <;>
    split_ifs <;> simp_all

/-- From a caught state, no CATCH is ever emitted again. -/
theorem gk_no_catch_after (l : List SensorData) :
    ∀ g : GameState, g.goalkeeper_caught = true → countCatch (runActions g l) = 0 := by
  induction l with
  | nil => intro g _; simp [runActions, countCatch]
  | cons s rest ih =>
    intro g hg
    have h1 := (gk_caught_step g s).1 hg
    simp [runActions, countCatch, h1.2]
    exact ih _ h1.1

/-- From any state, a run emits at most one CATCH. -/
theorem gk_at_most_one (l : List SensorData) :
    ∀ g : GameState, countCatch (runActions g l) ≤ 1 := by
  induction l with
  | nil => intro g; simp [runActions, countCatch]
  | cons s rest ih =>
    intro g
    by_cases hc : (decide_action g s).2.type = ActionType.CATCH
    · have h2 := (gk_caught_step g s).2.1 hc
      simp [runActions, countCatch, hc, gk_no_catch_after rest _ h2]
    · simp [runActions, countCatch, hc]
      exact ih _

/-- Claim C5: between resets, at most one catch is ever emitted — every run
from the reset state contains at most one CATCH action, and after any step
that emits CATCH, no later step emits CATCH again (regardless of how often
the ball re-enters catchable range), until reset. A catch is emitted exactly
when an uncaught, already-turned goalkeeper sees the ball within the
catchable threshold during play. -/
theorem C5_goalkeeper_single_catch :
    (∀ l : List SensorData, countCatch (runActions initState l) ≤ 1)
  ∧ (∀ (g : GameState) (s : SensorData) (l : List SensorData),
      (decide_action g s).2.type = ActionType.CATCH →
      countCatch (runActions (decide_action g s).1 l) = 0)
  ∧ (∀ (g : GameState) (s : SensorData),
      g.goalkeeper_caught = false → g.goalkeeper_turned = true →
      s.status = GameStatus.PLAYING → s.role = PlayerRole.GOALKEEPER →
      s.ball.visible = true → s.ball.distance ≤ CATCHABLE_DISTANCE_GK_SIM →
      (decide_action g s).2 = Action.catch_ball s.ball.angle) := by
  refine ⟨fun l => gk_at_most_one l initState, fun g s l hc =>
    gk_no_catch_after l _ ((gk_caught_step g s).2.1 hc), fun g s h1 h2 h3 h4 h5 h6 => ?_⟩
  simp [decide_action, h3, h4, decide_goalkeeper, h1, h2, h5, h6]

/-- Claim C5 (witness): an already-turned goalkeeper with the ball 0.5 m away
catches it, and the continuation run emits no further catch. -/
theorem C5_goalkeeper_single_catch_witness :
    (decide_action turnedState gkSnap).2 = Action.catch_ball 0 ∧
    countCatch (runActions (decide_action turnedState gkSnap).1 [gkSnap, gkSnap]) = 0 := by
  constructor
  · have h := C5_goalkeeper_single_catch.2.2 turnedState gkSnap rfl rfl rfl rfl rfl
      (by norm_num [gkSnap, baseSensors, ballAt, CATCHABLE_DISTANCE_GK_SIM])
    simpa [gkSnap, baseSensors, ballAt] using h
  · refine C5_goalkeeper_single_catch.2.1 turnedState gkSnap [gkSnap, gkSnap] ?_
    have h := C5_goalkeeper_single_catch.2.2 turnedState gkSnap rfl rfl rfl rfl rfl
      (by norm_num [gkSnap, baseSensors, ballAt, CATCHABLE_DISTANCE_GK_SIM])
    rw [h]
    simp [Action.catch_ball]

/-- The first normalize_angle loop lands at or below 180 and only ever
subtracts whole multiples of 360. -/
theorem subLoop_spec_aux :
    ∀ n : ℕ, ∀ a : ℝ, subSteps a ≤ n →
      subLoop a ≤ 180 ∧ ∃ k : ℤ, subLoop a = a - 360 * k := by
  intro n
  induction n with
  | zero =>
    intro a hn
    have hle : a ≤ 180 := by
      by_contra hgt
      push_neg at hgt
      have h1 : (0 : ℝ) < (a - 180) / 360 := div_pos (by linarith) (by norm_num)
      have h2 : 0 < Int.ceil ((a - 180) / 360) := Int.ceil_pos.mpr h1
      unfold subSteps at hn
      omega
    rw [subLoop.eq_def, dif_neg (not_lt.mpr hle)]
    exact ⟨hle, 0, by ring⟩
  | succ n ih =>
    intro a hn
    by_cases hgt : 180 < a
    · have hstep := subSteps_dec a hgt
      obtain ⟨h1, k, hk⟩ := ih (a - 360) (by omega)
      rw [subLoop.eq_def, dif_pos hgt]
      refine ⟨h1, k + 1, ?_⟩
      rw [hk]
      push_cast
      ring
    · rw [subLoop.eq_def, dif_neg hgt]
      exact ⟨not_lt.mp hgt, 0, by ring⟩

/-- The second normalize_angle loop lands at or above -180, stays at or below
180 when started there, and only ever adds whole multiples of 360. -/
theorem addLoop_spec_aux :
    ∀ n : ℕ, ∀ a : ℝ, addSteps a ≤ n →
      -180 ≤ addLoop a ∧ (a ≤ 180 → addLoop a ≤ 180) ∧
      ∃ k : ℤ, addLoop a = a + 360 * k := by
  intro n
  induction n with
  | zero =>
    intro a hn
    have hge : -180 ≤ a := by
      by_contra hlt
      push_neg at hlt
      have h1 : (0 : ℝ) < (-180 - a) / 360 := div_pos (by linarith) (by norm_num)
      have h2 : 0 < Int.ceil ((-180 - a) / 360) := Int.ceil_pos.mpr h1
      unfold addSteps at hn
      omega
    rw [addLoop.eq_def, dif_neg (not_lt.mpr hge)]
    exact ⟨hge, fun h => h, 0, by ring⟩
  | succ n ih =>
    intro a hn
    by_cases hlt : a < -180
    · have hstep := addSteps_dec a hlt
      obtain ⟨h1, h2, k, hk⟩ := ih (a + 360) (by omega)
      rw [addLoop.eq_def, dif_pos hlt]
      refine ⟨h1, fun _ => h2 (by linarith), k + 1, ?_⟩
      rw [hk]
      push_cast
      ring
    · rw [addLoop.eq_def, dif_neg hlt]
      exact ⟨not_lt.mp hlt, fun h => h, 0, by ring⟩

/-- Claim C9 (counterexample): normalize_angle(-180) = -180, which lies
outside the claimed half-open interval (-180, 180]. -/
theorem C9_minus_180_counterexample :
    normalize_angle (-180) = -180 ∧ ¬ (-180 < normalize_angle (-180)) := by
  have h : normalize_angle (-180) = -180 := by
    unfold normalize_angle
    rw [subLoop.eq_def, dif_neg (by norm_num), addLoop.eq_def, dif_neg (by norm_num)]
  refine ⟨h, ?_⟩
  rw [h]
  norm_num

/-- Claim C9 (amended): normalize_angle maps every real input into the closed
interval [-180, 180] (the comment in the code itself says [-180, 180]; -180 is
attained, e.g. at input -180), and the result is congruent to the input
modulo 360. -/
theorem C9_normalize_angle_range_amended (a : ℝ) :
    -180 ≤ normalize_angle a ∧ normalize_angle a ≤ 180 ∧
    ∃ k : ℤ, normalize_angle a = a + 360 * k := by
  obtain ⟨hs1, k1, hk1⟩ := subLoop_spec_aux (subSteps a) a le_rfl
  obtain ⟨ha1, ha2, k2, hk2⟩ := addLoop_spec_aux (addSteps (subLoop a)) (subLoop a) le_rfl
  unfold normalize_angle
  refine ⟨ha1, ha2 hs1, k2 - k1, ?_⟩
  rw [hk2, hk1]
  push_cast
  ring

/-- The fuelled first loop converges to its well-founded value once the fuel
exceeds the number of pending 360-steps. -/
theorem subLoopF_conv :
    ∀ n : ℕ, ∀ a : ℝ, subSteps a < n → subLoopF n a = Option.some (subLoop a) := by
  intro n
  induction n with
  | zero => intro a h; omega
  | succ n ih =>
    intro a h
    by_cases hgt : 180 < a
    · have hstep := subSteps_dec a hgt
      have hsub : subLoop a = subLoop (a - 360) := by
        rw [subLoop.eq_def]
        exact dif_pos hgt
      simp only [subLoopF]
      rw [if_pos hgt, ih (a - 360) (by omega), hsub]
    · have hsub : subLoop a = a := by
        rw [subLoop.eq_def]
        exact dif_neg hgt
      simp only [subLoopF]
      rw [if_neg hgt, hsub]

/-- The fuelled second loop converges likewise. -/
theorem addLoopF_conv :
    ∀ n : ℕ, ∀ a : ℝ, addSteps a < n → addLoopF n a = Option.some (addLoop a) := by
  intro n
  induction n with
  | zero => intro a h; omega
  | succ n ih =>
    intro a h
    by_cases hlt : a < -180
    · have hstep := addSteps_dec a hlt
      have hadd : addLoop a = addLoop (a + 360) := by
        rw [addLoop.eq_def]
        exact dif_pos hlt
      simp only [addLoopF]
      rw [if_pos hlt, ih (a + 360) (by omega), hadd]
    · have hadd : addLoop a = a := by
        rw [addLoop.eq_def]
        exact dif_neg hlt
      simp only [addLoopF]
      rw [if_neg hlt, hadd]

/-- Claim C10: both while-loops of normalize_angle terminate on every real
input — some finite fuel makes the fuelled operational semantics of the
loops return, and the value is the one computed by the well-founded
definition (each iteration moves the angle 360 closer to the target band). -/
theorem C10_normalize_angle_terminates (a : ℝ) :
    ∃ n : ℕ, normalizeF n a = Option.some (normalize_angle a) := by
  refine ⟨max (subSteps a + 1) (addSteps (subLoop a) + 1), ?_⟩
  have h1 : normalizeF (max (subSteps a + 1) (addSteps (subLoop a) + 1)) a =
      addLoopF (max (subSteps a + 1) (addSteps (subLoop a) + 1)) (subLoop a) := by
    unfold normalizeF
    rw [subLoopF_conv _ a (lt_of_lt_of_le (Nat.lt_succ_self _) (le_max_left _ _))]
  rw [h1, addLoopF_conv _ _ (lt_of_lt_of_le (Nat.lt_succ_self _) (le_max_right _ _))]
  rfl

/-- Both candidate points computed by triangulate lie on both circles:
pure algebra, assuming the defining relations of d, a and h. -/
theorem circle_alg (x1 y1 x2 y2 r1 r2 d a h e ix iy : ℝ)
    (hd0 : d ≠ 0)
    (hd2 : d * d = (x2 - x1) * (x2 - x1) + (y2 - y1) * (y2 - y1))
    (ha : a * (2 * d) = r1 * r1 - r2 * r2 + d * d)
    (hh : h * h = r1 * r1 - a * a)
    (he : e * e = 1)
    (hix : ix = x1 + a * (x2 - x1) / d + e * (h * (y2 - y1) / d))
    (hiy : iy = y1 + a * (y2 - y1) / d - e * (h * (x2 - x1) / d)) :
    (ix - x1) ^ 2 + (iy - y1) ^ 2 = r1 ^ 2 ∧
    (ix - x2) ^ 2 + (iy - y2) ^ 2 = r2 ^ 2 := by
  subst hix hiy
  constructor
  · field_simp
    linear_combination (h * h * ((x2 - x1) * (x2 - x1) + (y2 - y1) * (y2 - y1))) * he +
      ((x2 - x1) * (x2 - x1) + (y2 - y1) * (y2 - y1)) * hh - r1 ^ 2 * hd2
  · field_simp
    linear_combination (h * h * ((x2 - x1) * (x2 - x1) + (y2 - y1) * (y2 - y1))) * he +
      ((x2 - x1) * (x2 - x1) + (y2 - y1) * (y2 - y1)) * hh -
      ((x2 - x1) * (x2 - x1) + (y2 - y1) * (y2 - y1)) * ha - r2 ^ 2 * hd2

/-- When the two observation circles do not meet (centres further apart than
the sum of radii, or closer than their difference), triangulate is invalid. -/
theorem triangulate_no_solution (x1 y1 r1 x2 y2 r2 : ℝ)
    (h : r1 + r2 < Real.sqrt ((x2 - x1) * (x2 - x1) + (y2 - y1) * (y2 - y1)) ∨
         Real.sqrt ((x2 - x1) * (x2 - x1) + (y2 - y1) * (y2 - y1)) < |r1 - r2|) :
    (triangulate x1 y1 r1 x2 y2 r2).valid = false := by
  simp only [triangulate]
  rw [if_pos]
  · rfl
  · rcases h with h | h
    · exact Or.inl h
    · exact Or.inr (Or.inl h)

/-- When the circles meet (|r1-r2| ≤ d ≤ r1+r2, d ≠ 0), triangulate returns a
valid pose lying exactly on both circles. -/
theorem triangulate_on_circles (x1 y1 r1 x2 y2 r2 : ℝ)
    (h1 : |r1 - r2| ≤ Real.sqrt ((x2 - x1) * (x2 - x1) + (y2 - y1) * (y2 - y1)))
    (h2 : Real.sqrt ((x2 - x1) * (x2 - x1) + (y2 - y1) * (y2 - y1)) ≤ r1 + r2)
    (h3 : ¬ Real.sqrt ((x2 - x1) * (x2 - x1) + (y2 - y1) * (y2 - y1)) = 0) :
    (triangulate x1 y1 r1 x2 y2 r2).valid = true ∧
    ((triangulate x1 y1 r1 x2 y2 r2).x - x1) ^ 2 +
      ((triangulate x1 y1 r1 x2 y2 r2).y - y1) ^ 2 = r1 ^ 2 ∧
    ((triangulate x1 y1 r1 x2 y2 r2).x - x2) ^ 2 +
      ((triangulate x1 y1 r1 x2 y2 r2).y - y2) ^ 2 = r2 ^ 2 := by
  simp only [triangulate]
  set d : ℝ := Real.sqrt ((x2 - x1) * (x2 - x1) + (y2 - y1) * (y2 - y1)) with hd
  set a : ℝ := (r1 * r1 - r2 * r2 + d * d) / (2 * d) with haDef
  set h : ℝ := Real.sqrt (r1 * r1 - a * a) with hhDef
  have hdnn : 0 ≤ d := hd ▸ Real.sqrt_nonneg _
  have hdpos : 0 < d := lt_of_le_of_ne hdnn (fun hc => h3 hc.symm)
  have hdne : d ≠ 0 := ne_of_gt hdpos
  have hd2 : d * d = (x2 - x1) * (x2 - x1) + (y2 - y1) * (y2 - y1) := by
    rw [hd]
    exact Real.mul_self_sqrt (add_nonneg (mul_self_nonneg _) (mul_self_nonneg _))
  have ha : a * (2 * d) = r1 * r1 - r2 * r2 + d * d := by
    rw [haDef]
    field_simp
  have habs := abs_le.mp h1
  have f1 : 0 ≤ (r1 + r2) - d := by linarith
  have f2 : 0 ≤ (r2 + d) - r1 := by linarith [habs.2]
  have f3 : 0 ≤ (d + r1) - r2 := by linarith [habs.1]
  have f4 : 0 ≤ d + r1 + r2 := by linarith
  have key : (r1 * r1 - a * a) * (4 * (d * d)) =
      ((r1 + r2) - d) * ((r2 + d) - r1) * ((d + r1) - r2) * (d + r1 + r2) := by
    linear_combination (-(r1 * r1 - r2 * r2 + d * d) - a * (2 * d)) * ha
  have hprod : 0 ≤ ((r1 + r2) - d) * ((r2 + d) - r1) * ((d + r1) - r2) * (d + r1 + r2) :=
    mul_nonneg (mul_nonneg (mul_nonneg f1 f2) f3) f4
  have h4d : (0 : ℝ) < 4 * (d * d) := by positivity
  have hsqnn : 0 ≤ r1 * r1 - a * a := by nlinarith [key, hprod, h4d]
  have hh : h * h = r1 * r1 - a * a := by
    rw [hhDef]
    exact Real.mul_self_sqrt hsqnn
  have hg1 : ¬ (r1 + r2 < d ∨ d < |r1 - r2| ∨ d = 0) := by
    push_neg
    exact ⟨h2, h1, fun hc => h3 hc⟩
  have hg2 : ¬ (r1 * r1 - a * a < 0) := not_lt.mpr hsqnn
  rw [if_neg hg1, if_neg hg2]
  split_ifs with hc1 hc2
  · exact ⟨rfl,
      (circle_alg x1 y1 x2 y2 r1 r2 d a h 1 _ _ hdne hd2 ha hh (by norm_num)
        (by ring) (by ring)).1,
      (circle_alg x1 y1 x2 y2 r1 r2 d a h 1 _ _ hdne hd2 ha hh (by norm_num)
        (by ring) (by ring)).2⟩
  · exact ⟨rfl,
      (circle_alg x1 y1 x2 y2 r1 r2 d a h (-1) _ _ hdne hd2 ha hh (by norm_num)
        (by ring) (by ring)).1,
      (circle_alg x1 y1 x2 y2 r1 r2 d a h (-1) _ _ hdne hd2 ha hh (by norm_num)
        (by ring) (by ring)).2⟩
  · exact ⟨rfl,
      (circle_alg x1 y1 x2 y2 r1 r2 d a h 1 _ _ hdne hd2 ha hh (by norm_num)
        (by ring) (by ring)).1,
      (circle_alg x1 y1 x2 y2 r1 r2 d a h 1 _ _ hdne hd2 ha hh (by norm_num)
        (by ring) (by ring)).2⟩

/-- estimate_position takes validity and (x, y) verbatim from the triangulation
of the first two resolved flags (heading fusion touches only the heading). -/
theorem estimate_position_fields (flags : List FlagInfo)
    (k1 k2 : KnownFlagData) (rest : List KnownFlagData)
    (hres : resolvedFlags flags = k1 :: k2 :: rest) :
    ((triangulate k1.x k1.y k1.dist k2.x k2.y k2.dist).valid = true →
      (estimate_position flags).valid = true ∧
      (estimate_position flags).x = (triangulate k1.x k1.y k1.dist k2.x k2.y k2.dist).x ∧
      (estimate_position flags).y = (triangulate k1.x k1.y k1.dist k2.x k2.y k2.dist).y)
  ∧ ((triangulate k1.x k1.y k1.dist k2.x k2.y k2.dist).valid = false →
      (estimate_position flags).valid = false) := by
  have hle1 : (resolvedFlags flags).length ≤ flags.length := by
    unfold resolvedFlags
    exact le_trans (by rw [List.length_take]; exact min_le_right _ _)
      (List.length_filterMap_le _ _)
  rw [hres] at hle1
  simp only [List.length_cons] at hle1
  have hlen : ¬ flags.length < 2 := by omega
  constructor
  · intro hv
    simp only [estimate_position]
    rw [if_neg hlen, hres]
    simp [hv]
  · intro hv
    simp only [estimate_position]
    rw [if_neg hlen, hres]
    simp [hv, PlayerPosition.invalid]

/-- Claim C3: when the first two resolved landmark observations describe
circles that geometrically intersect (|r1-r2| ≤ d ≤ r1+r2, d ≠ 0),
estimate_position returns a valid pose whose (x, y) lies exactly on both
circles (an intersection point); when d > r1+r2 or d < |r1-r2|, it returns an
invalid pose. -/
theorem C3_estimate_position_circle_intersection
    (flags : List FlagInfo) (k1 k2 : KnownFlagData) (rest : List KnownFlagData)
    (hres : resolvedFlags flags = k1 :: k2 :: rest) :
    ((|k1.dist - k2.dist| ≤
        Real.sqrt ((k2.x - k1.x) * (k2.x - k1.x) + (k2.y - k1.y) * (k2.y - k1.y)) ∧
      Real.sqrt ((k2.x - k1.x) * (k2.x - k1.x) + (k2.y - k1.y) * (k2.y - k1.y)) ≤
        k1.dist + k2.dist ∧
      ¬ Real.sqrt ((k2.x - k1.x) * (k2.x - k1.x) + (k2.y - k1.y) * (k2.y - k1.y)) = 0) →
      (estimate_position flags).valid = true ∧
      ((estimate_position flags).x - k1.x) ^ 2 + ((estimate_position flags).y - k1.y) ^ 2
        = k1.dist ^ 2 ∧
      ((estimate_position flags).x - k2.x) ^ 2 + ((estimate_position flags).y - k2.y) ^ 2
        = k2.dist ^ 2)
  ∧ ((k1.dist + k2.dist <
        Real.sqrt ((k2.x - k1.x) * (k2.x - k1.x) + (k2.y - k1.y) * (k2.y - k1.y)) ∨
      Real.sqrt ((k2.x - k1.x) * (k2.x - k1.x) + (k2.y - k1.y) * (k2.y - k1.y)) <
        |k1.dist - k2.dist|) →
      (estimate_position flags).valid = false) := by
  constructor
  · rintro ⟨h1, h2, h3⟩
    obtain ⟨hval, honc1, honc2⟩ :=
      triangulate_on_circles k1.x k1.y k1.dist k2.x k2.y k2.dist h1 h2 h3
    obtain ⟨hv, hx, hy⟩ := (estimate_position_fields flags k1 k2 rest hres).1 hval
    refine ⟨hv, ?_, ?_⟩
    · rw [hx, hy]
      exact honc1
    · rw [hx, hy]
      exact honc2
  · intro h
    exact (estimate_position_fields flags k1 k2 rest hres).2
      (triangulate_no_solution _ _ _ _ _ _ h)

/-- Claim C3 (witness): with the centre flag seen at range 19 and the
top-centre flag (0, 39) at range 20, estimate_position returns a valid pose
on both circles. -/
theorem C3_estimate_position_witness :
    (estimate_position triFlags).valid = true ∧
    (estimate_position triFlags).x ^ 2 + (estimate_position triFlags).y ^ 2 = 361 ∧
    (estimate_position triFlags).x ^ 2 + ((estimate_position triFlags).y - 39) ^ 2
      = 400 := by
  have hres : resolvedFlags triFlags =
      [⟨0, 0, 19, 0⟩, ⟨0, 39, 20, 0⟩] := by
    simp [resolvedFlags, triFlags, get_flag_position]
  have hsq : Real.sqrt (((0:ℝ) - 0) * (0 - 0) + (39 - 0) * (39 - 0)) = 39 := by
    rw [show ((0:ℝ) - 0) * (0 - 0) + (39 - 0) * (39 - 0) = 39 ^ 2 by norm_num]
    exact Real.sqrt_sq (by norm_num)
  have h := (C3_estimate_position_circle_intersection triFlags
      ⟨0, 0, 19, 0⟩ ⟨0, 39, 20, 0⟩ [] hres).1
    (by rw [hsq]; norm_num)
  refine ⟨h.1, ?_, ?_⟩
  · have h2 := h.2.1
    norm_num at h2
    simpa using h2
  · have h2 := h.2.2
    norm_num at h2
    simpa using h2

end robocup
